import Mathlib

/-
Shallow embedding of the candidate-selection and filtering pipeline of
backend/spotify_client.py (repository Benijah2k20/VibeList1.1), together
with theorems settling the frozen claims C1..C10.

Modelling conventions:
* The Spotify client `sp` is modelled as an oracle record of pure functions;
  an external call that raises is an `Except.error ()` result.
* Python floats are modelled as rationals (ℚ); `random.uniform(lo, hi)` is
  modelled as `lo + u * (hi - lo)` for a unit sample `u ∈ [0,1]`;
  `random.randint(-8, 8)` is an integer parameter constrained in theorems.
* Python's `str.lower` is modelled on ASCII letters, which covers every
  string constant appearing in the source.
* `int(0.6 * n)` / `int(0.4 * n)` are modelled as `3 * n / 5` and
  `2 * n / 5` on ℕ, their exact values for IEEE doubles at playlist sizes.
-/

namespace VibeList

/-! ### ASCII string helpers (model of `str.lower`, `re.split`, `in`) -/

/-- ASCII model of Python `str.lower` on a single character. -/
def lowerChar (c : Char) : Char :=
  if 'A' ≤ c ∧ c ≤ 'Z' then Char.ofNat (c.toNat + 32) else c

/-- ASCII model of Python `str.lower`. -/
def lowerStr (s : String) : String := String.mk (s.toList.map lowerChar)

/-- Model of Python `str.strip`: drop leading and trailing whitespace. -/
def stripStr (s : String) : String :=
  String.mk (((s.toList.dropWhile Char.isWhitespace).reverse.dropWhile
    Char.isWhitespace).reverse)

/-- Maximal runs of characters satisfying `p`; models
`[t for t in re.split(inverse-class, s) if t]`. -/
def runsOfAux (p : Char → Bool) (cur : List Char) : List Char → List (List Char)
  | [] => if cur = [] then [] else [cur.reverse]
  | c :: cs =>
    if p c then runsOfAux p (c :: cur) cs
    else if cur = [] then runsOfAux p [] cs
    else cur.reverse :: runsOfAux p [] cs

/-- Characters kept by `re.split(r"[^a-z\-]+", ·)`. -/
def isGenreChar (c : Char) : Bool := ('a' ≤ c ∧ c ≤ 'z') ∨ c = '-'

/-- Characters kept by `re.split(r"[^a-z]+", ·)`. -/
def isLowerAlpha (c : Char) : Bool := 'a' ≤ c ∧ c ≤ 'z'

/-- `_split_tokens` (spotify_client.py:121-122): lower-case, then split on
non-letter/non-hyphen boundaries, dropping empty pieces. -/
def splitTokens (s : String) : List String :=
  (runsOfAux isGenreChar [] (lowerStr s).toList).map String.mk

/-- `needle` occurs at the start of `hay` (character lists). -/
def leadsCL : List Char → List Char → Bool
  | [], _ => true
  | _ :: _, [] => false
  | n :: ns, h :: hs => n = h && leadsCL ns hs

/-- `needle` occurs somewhere inside `hay` (character lists); models
Python `needle in hay` on strings. -/
def occursCL (needle : List Char) : List Char → Bool
  | [] => needle.isEmpty
  | h :: hs => leadsCL needle (h :: hs) || occursCL needle hs

/-- Python `needle in hay` for strings. -/
def occursStr (needle hay : String) : Bool := occursCL needle.toList hay.toList

/-! ### Genre normalizer (`_normalize_genre_list`, spotify_client.py:121-160) -/

/-- `DEFAULT_SEED_GENRES` (spotify_client.py:87-91, the set that shadows the
earlier list of the same name). -/
def defaultSeedGenres : List String :=
  ["pop", "dance-pop", "edm", "house", "hip-hop", "r-n-b",
   "indie-pop", "alt-rock", "trap", "electronic", "chill",
   "ambient", "dancehall", "reggaeton", "funk", "soul"]

/-- The fixed upbeat-biased default list inside `_normalize_genre_list`
(spotify_client.py:156). -/
def normalizeDefaults : List String :=
  ["dance-pop", "edm", "hip-hop", "indie-pop", "pop", "house", "trap"]

/-- The synonym table of `_normalize_genre_list` (spotify_client.py:135-144). -/
def synonymFold (t : String) : String :=
  if t = "lofi" ∨ t = "lo-fi" then "chillhop"
  else if t = "hiphop" ∨ t = "hip-hop" then "hip-hop"
  else if t = "rnb" ∨ t = "r&b" then "r-n-b"
  else if t = "indiepop" then "indie-pop"
  else if t = "alt" then "alternative"
  else if t = "altrock" then "alt-rock"
  else if t = "electro" then "electronic"
  else if t = "dance" ∨ t = "party" then "dance-pop"
  else if t = "workout" then "edm"
  else if t = "club" then "house"
  else if t = "reggae" then "dancehall"
  else t

/-- The `cleaned, seen` loop of `_normalize_genre_list`
(spotify_client.py:146-151): keep non-empty first occurrences. -/
def dedupAux (seen : List String) : List String → List String
  | [] => []
  | t :: ts =>
    if t ≠ "" ∧ t ∉ seen then t :: dedupAux (t :: seen) ts
    else dedupAux seen ts

/-- `_normalize_genre_list(sp, genres)` (spotify_client.py:124-160) for a
list-of-strings input. `allowed` is `_allowed_genres(sp)`; the
`or DEFAULT_SEED_GENRES` of line 125 is embedded here. -/
def normalizeGenreList (allowed : List String) (genres : List String) : List String :=
  let allowedEff := if allowed = [] then defaultSeedGenres else allowed
  let tokens := (genres.map splitTokens).flatten
  let cleaned := dedupAux [] (tokens.map synonymFold)
  let valid := cleaned.filter (fun g => g ∈ allowedEff)
  let valid2 := if valid = [] then (normalizeDefaults.filter (fun g => g ∈ allowedEff)).take 5 else valid
  valid2.take 5

/-! ### SFX/content heuristic (`_looks_like_sfx`, spotify_client.py:199-229) -/

/-- `_BLOCK_TERMS` (spotify_client.py:199-204). -/
def blockTerms : List String :=
  ["rain", "rainfall", "thunder", "storm", "thunderstorm",
   "ocean", "waves", "water sounds", "nature sounds",
   "brown noise", "white noise", "pink noise",
   "asmr", "sleep", "meditation", "focus sounds", "relaxing sounds"]

/-- `_EXCEPT_PHRASES` (spotify_client.py:206). -/
def exceptPhrases : List String := ["purple rain"]

/-- Python `term.replace(" ", "")`. -/
def removeSpaces (s : String) : String :=
  String.mk (s.toList.filter (fun c => c ≠ ' '))

/-- `{t.replace(" ", "") for t in _BLOCK_TERMS}` (spotify_client.py:222). -/
def blockTermsNoSpace : List String := blockTerms.map removeSpaces

/-- Body of `_looks_like_sfx` on the lower-cased haystack
(spotify_client.py:217-229): exception phrases first, then exact-token
match against the space-stripped block terms, then substring-phrase match. -/
def looksLikeSfxHay (hay : String) : Bool :=
  if exceptPhrases.any (fun p => occursStr p hay) then false
  else
    let toks := (runsOfAux isLowerAlpha [] hay.toList).map String.mk
    if blockTermsNoSpace.any (fun t => toks.contains t) then true
    else blockTerms.any (fun t => occursStr t hay)

/-- Track descriptor relevant to the title/album heuristic
(`sp.tracks` result entries). -/
structure TrackMeta where
  name : String
  album : String
deriving DecidableEq

/-- `_looks_like_sfx(track)` on a dict (or `None`) input
(spotify_client.py:210-213): haystack is lower-cased "title album". -/
def looksLikeSfxMeta (t : Option TrackMeta) : Bool :=
  match t with
  | some m => looksLikeSfxHay (lowerStr m.name ++ " " ++ lowerStr m.album)
  | none => looksLikeSfxHay ""

/-- `_looks_like_sfx(s)` on a string input (spotify_client.py:214-215). -/
def looksLikeSfxStr (s : String) : Bool := looksLikeSfxHay (lowerStr s)

/-! ### Audio-feature filter (`_audio_feature_filter`, spotify_client.py:232-314) -/

/-- Audio-feature descriptor of one track (`sp.audio_features` entry). -/
structure AF where
  instrumentalness : Option ℚ
  speechiness : Option ℚ
  energy : Option ℚ
  tempo : Option ℚ
  durationMs : Option ℚ
deriving DecidableEq

/-- The keys `_audio_feature_filter` reads from the params dict. -/
structure FilterParams where
  instrumentalOk : Bool
  vocalsRequired : Option Bool
  tempoBpm : Option ℤ
deriving DecidableEq

/-- The tempo-window exclusion (spotify_client.py:248-251 and 308-311):
applies only when a numeric tempo target was set and the candidate's
tempo is known; the window is `[max(40, t-20) - 8, min(220, t+20) + 8]`. -/
def tempoBad (tb : Option ℤ) (tp : Option ℚ) : Bool :=
  match tb, tp with
  | some t, some tpv =>
    decide (tpv < ((max 40 (t - 20) - 8 : ℤ) : ℚ) ∨ tpv > ((min 220 (t + 20) + 8 : ℤ) : ℚ))
  | _, _ => false

/-- One iteration of the feature loop of `_audio_feature_filter`
(spotify_client.py:286-311), deciding whether a single candidate with
features `f` survives. Mirrors the `continue`-chain order; the decimal
constants 0.66, 0.85, 0.03 are the source's literals. -/
def featKeep (fp : FilterParams) (f : AF) : Bool :=
  let vocalsRequired := fp.vocalsRequired.getD (!fp.instrumentalOk)
  if f.durationMs.getD 0 ≥ 600000 then false
  else if f.speechiness.any (fun s => s ≥ mkRat 66 100) then false
  else if vocalsRequired && f.instrumentalness.any (fun x => x ≥ mkRat 85 100) then false
  else if f.energy.any (fun e => e ≤ mkRat 3 100) then false
  else !tempoBad fp.tempoBpm f.tempo

/-- The guard `if not keep_mask[i] or not f: continue` around `featKeep`
(spotify_client.py:279-280). -/
def featStep (fp : FilterParams) (m : Bool) (f : Option AF) : Bool :=
  match f with
  | none => m
  | some fv => if m then featKeep fp fv else m

/-- The feature pass over the keep mask (spotify_client.py:278-311);
mask entries beyond the features list are untouched. -/
def applyFeats (fp : FilterParams) : List Bool → List (Option AF) → List Bool
  | mask, [] => mask
  | [], _ :: _ => []
  | m :: ms, f :: fs => featStep fp m f :: applyFeats fp ms fs

/-- The title/album pass over the keep mask (spotify_client.py:264-269);
each iteration is individually exception-guarded, so metadata entries
beyond the mask are ignored. -/
def titleMask : List Bool → List (Option TrackMeta) → List Bool
  | mask, [] => mask
  | [], _ :: _ => []
  | m :: ms, t :: ts => (m && !looksLikeSfxMeta t) :: titleMask ms ts

/-- `[u for u, ok in zip(uris, keep_mask) if ok]` (spotify_client.py:314). -/
def maskKeep (uris : List String) (mask : List Bool) : List String :=
  ((uris.zip mask).filter (fun p => p.2)).map (fun p => p.1)

/-- `_audio_feature_filter` given already-fetched metadata and features
(spotify_client.py:261-314). `feats = none` models an
`sp.audio_features` exception; an empty list is falsy and also skips
the feature pass. -/
def audioFilterCore (uris : List String) (meta : List (Option TrackMeta))
    (feats : Option (List (Option AF))) (fp : FilterParams) : List String :=
  if uris = [] then uris
  else
    let mask1 := titleMask (uris.map (fun _ => true)) meta
    let mask2 :=
      match feats with
      | some fs => if fs = [] then mask1 else applyFeats fp mask1 fs
      | none => mask1
    maskKeep uris mask2

/-- The stage-1 relaxation of `recommend_tracks` (spotify_client.py:510-512):
`params_relaxed = dict(params); instrumental_ok = True; vocals_required = False`. -/
def relaxParams (fp : FilterParams) : FilterParams :=
  { fp with instrumentalOk := true, vocalsRequired := some false }

/-! ### Target jitterer (`_jitter` spotify_client.py:162-167, `_j` 371-376) -/

/-- Python `round(x)` on a rational: round half to even. -/
def pyRoundInt (x : ℚ) : ℤ :=
  let f := Int.floor x
  let r := x - f
  if r < 1 / 2 then f
  else if r > 1 / 2 then f + 1
  else if Even f then f else f + 1

/-- Python `round(x, 2)`. -/
def round2 (x : ℚ) : ℚ := (pyRoundInt (x * 100) : ℚ) / 100

/-- The body of `_jitter` / `_j` on a present center `v`: the uniform
sample in `[lo, hi]` is modelled as `lo + u * (hi - lo)` for a unit
sample `u`. -/
def jitterAt (v spread u : ℚ) : ℚ :=
  let lo := max 0 (v - spread)
  let hi := min 1 (v + spread)
  round2 (lo + u * (hi - lo))

/-- `_jitter(val, spread)` (spotify_client.py:162-167); `_j` (371-376) is
the same function with default spread 0.12 instead of 0.15. `none` models
Python `None`. -/
def jitter (v : Option ℚ) (spread u : ℚ) : Option ℚ :=
  match v with
  | none => none
  | some x => some (jitterAt x spread u)

/-- `_clamp01`-style clamp used by `mid` (spotify_client.py:333). -/
def clamp01 (x : ℚ) : ℚ := max 0 (min 1 x)

/-- `mid(pair)` inside `recommend_tracks` (spotify_client.py:331-335). -/
def mid (pair : ℚ × ℚ) : ℚ := clamp01 ((pair.1 + pair.2) / 2)

/-! ### Recommender (`recommend_tracks`, spotify_client.py:319-521) -/

/-- A recommendations request: the keyword arguments passed to
`sp.recommendations`. `none` target fields model absent keys. -/
structure RecRequest where
  limit : ℕ
  market : Option String
  targetEnergy : Option ℚ
  targetValence : Option ℚ
  targetDanceability : Option ℚ
  targetAcousticness : Option ℚ
  targetTempo : Option ℤ
  seedArtists : List String
  seedGenres : List String
  seedTracks : List String

/-- The Spotify client `sp`, as a pure oracle. An `Except.error ()`
result models an external call that raises. List payloads carry
`Option String` entries because the source guards each `t.get(...)`
against missing values. -/
structure Oracle where
  allowedGenres : List String
  recommendations : RecRequest → Except Unit (List (Option String))
  searchTrackIds : String → Except Unit (List (Option String))
  searchTracks : String → Except Unit (List (Option String))
  artistGenres : String → Except Unit (List String)
  artistTopTracks : String → Except Unit (List (Option String))
  tracksMeta : List String → Except Unit (List (Option TrackMeta))
  audioFeatures : List String → Except Unit (List (Option AF))

/-- The random draws consumed by one `recommend_tracks` call. -/
structure Rand where
  uE : ℚ
  uV : ℚ
  uD : ℚ
  uA : ℚ
  tempoJit : ℤ
  kwCoin : ℚ
  shuffle : List String → List String

/-- The parameter dict keys `recommend_tracks` reads. `rawGenres` is the
resolved `user_genres or genre_candidates or genres or []` chain
(spotify_client.py:327). -/
structure RecParams where
  userArtistIds : List String
  rawGenres : List String
  energyRange : ℚ × ℚ
  valenceRange : ℚ × ℚ
  danceabilityRange : ℚ × ℚ
  acousticnessRange : ℚ × ℚ
  tempoBpm : Option ℤ
  keywords : List String
  instrumentalOk : Bool
  vocalsRequired : Option Bool

/-- The filter-relevant projection of the params dict. -/
def filterParamsOf (p : RecParams) : FilterParams :=
  ⟨p.instrumentalOk, p.vocalsRequired, p.tempoBpm⟩

/-- `tempo = max(40, min(220, tempo))` (spotify_client.py:342). -/
def clampTempo (t : ℤ) : ℤ := max 40 (min 220 t)

/-- The tempo target placed into the request:
`tempo + random.randint(-8, 8)` on the clamped tempo
(spotify_client.py:341-342 and 385). -/
def sentTempo (tempoBpm : Option ℤ) (r : ℤ) : ℤ :=
  clampTempo (tempoBpm.getD 100) + r

/-- The dedup-merge loop shared by every collection site: append each
present, non-empty, unseen URI (`if u and u not in seen`). The `seen`
set always holds exactly the bag's elements. -/
def mergeUris (bag : List String) : List (Option String) → List String
  | [] => bag
  | none :: is => mergeUris bag is
  | some u :: is =>
    if u ≠ "" ∧ u ∉ bag then mergeUris (bag ++ [u]) is else mergeUris bag is

/-- The fallback chain of `recommend_tracks` (spotify_client.py:458-468)
through the *effective* `_add_from_recs` (the second definition at
lines 445-456, which shadows the variant-trying first one): a stage is
"ok" exactly when the call does not raise, regardless of how many
tracks it returns, and the chain stops at the first ok stage. `r1`,
`r2`, `r3` are the responses to the full, seeds-only and genres-only
request shapes; `useGenres` is the `seed_genres` non-emptiness guard of
line 467. -/
def recsChain (r1 r2 r3 : Except Unit (List (Option String))) (useGenres : Bool) : List String :=
  match r1 with
  | .ok items => mergeUris [] items
  | .error _ =>
    match r2 with
    | .ok items => mergeUris [] items
    | .error _ =>
      if useGenres then
        match r3 with
        | .ok items => mergeUris [] items
        | .error _ => []
      else []

/-- Query built per keyword in `_keywords_to_seed_tracks`
(spotify_client.py:173). -/
def kwQuery (kw : String) : String :=
  if kw.toList.contains (' ') then "track:\"" ++ kw ++ "\"" else kw

/-- Inner item loop of `_keywords_to_seed_tracks` (spotify_client.py:176-180):
append truthy ids, stopping once `maxT` are collected. -/
def collectIds (maxT : ℕ) : List (Option String) → List String → List String
  | [], acc => acc
  | i :: is, acc =>
    match i with
    | some id =>
      if id ≠ "" then
        if (acc ++ [id]).length ≥ maxT then acc ++ [id]
        else collectIds maxT is (acc ++ [id])
      else collectIds maxT is acc
    | none => collectIds maxT is acc

/-- Keyword loop of `_keywords_to_seed_tracks` (spotify_client.py:171-185);
a search exception aborts the loop, returning what was collected. -/
def kwSeedAux (orc : Oracle) (maxT : ℕ) (seeds : List String) : List String → List String
  | [] => seeds
  | kw :: rest =>
    match orc.searchTrackIds (kwQuery kw) with
    | .error _ => seeds
    | .ok items =>
      let seeds2 := collectIds maxT items seeds
      if seeds2.length ≥ maxT then seeds2 else kwSeedAux orc maxT seeds2 rest

/-- `_keywords_to_seed_tracks(sp, keywords, max_tracks)`
(spotify_client.py:169-185). -/
def keywordsToSeedTracks (orc : Oracle) (keywords : List String) (maxT : ℕ) : List String :=
  kwSeedAux orc maxT [] (keywords.take 3)

/-- `_artist_seed_genres(sp, artist_ids, limit)` (spotify_client.py:187-197):
concatenate each artist's declared genres (failures skipped), normalize,
cap at `limit`. -/
def artistSeedGenres (orc : Oracle) (artistIds : List String) (limit : ℕ) : List String :=
  let raw := (artistIds.take 3).map (fun aid =>
    match orc.artistGenres aid with
    | .ok gs => gs
    | .error _ => [])
  (normalizeGenreList orc.allowedGenres raw.flatten).take limit

/-- The upbeat preference list of the seed guarantee branch
(spotify_client.py:358). -/
def upbeatPrefSeeds : List String := ["dance-pop", "edm", "house", "pop", "hip-hop"]

/-- The assembled seed entities of one request. `artists`, `genres`,
`tracks` are the `seed_artists` / `seed_genres` / `seed_tracks` entries
of the kwargs dict (absent key = `[]`); `genresAll` is the
`seed_genres` local variable, which the genres-only fallback reuses
untruncated (spotify_client.py:467-468). -/
structure SeedSet where
  artists : List String
  genres : List String
  tracks : List String
  genresAll : List String

/-- Seed assembly of `recommend_tracks` (spotify_client.py:344-368 and
389-394): artists truncated to 3, genres fill the remaining room,
artist-derived genres when the user picked artists but no genre
normalized, a guaranteed single genre otherwise, and at most one
keyword-derived seed track added only when room remains and the
0.6-probability coin (`coin < 0.6`) comes up. -/
def buildSeeds (orc : Oracle) (userArtistIds candidates kwSeeds : List String)
    (coin : ℚ) : SeedSet :=
  let seedArtists := userArtistIds.take 3
  let sg0 := candidates.take (max 0 (5 - seedArtists.length))
  let sg1 :=
    if seedArtists ≠ [] ∧ sg0 = [] then
      artistSeedGenres orc seedArtists (max 0 (5 - seedArtists.length))
    else sg0
  let sg2 :=
    if seedArtists = [] ∧ sg1 = [] then
      let allowedEff := if orc.allowedGenres = [] then defaultSeedGenres else orc.allowedGenres
      let picked := upbeatPrefSeeds.filter (fun g => g ∈ allowedEff)
      let picked2 := if picked = [] then allowedEff else picked
      [picked2.headD ""]
    else sg1
  let dictArtists := if seedArtists ≠ [] then seedArtists.take 5 else []
  let dictGenres :=
    if sg2 ≠ [] ∧ seedArtists.length < 5 then sg2.take (5 - seedArtists.length) else []
  let room := max 0 (5 - (dictArtists.length + dictGenres.length))
  let tracks :=
    if kwSeeds ≠ [] ∧ coin < mkRat 6 10 ∧ room > 0 then kwSeeds.take 1 else []
  ⟨dictArtists, dictGenres, tracks, sg2⟩

/-- Per-artist inner loop of the must-include block
(spotify_client.py:479-487): take up to `per` unseen top tracks. -/
def takeTopAux (per : ℕ) (bag : List String) (taken : ℕ) : List (Option String) → List String
  | [] => bag
  | i :: is =>
    if taken ≥ per then bag
    else
      match i with
      | some u =>
        if u ≠ "" ∧ u ∉ bag then takeTopAux per (bag ++ [u]) (taken + 1) is
        else takeTopAux per bag taken is
      | none => takeTopAux per bag taken is

/-- The must-include artist loop (spotify_client.py:476-489); lookup
failures skip the artist. -/
def addTopTracks (orc : Oracle) (per : ℕ) : List String → List String → List String
  | [], bag => bag
  | aid :: rest, bag =>
    match orc.artistTopTracks aid with
    | .ok items => addTopTracks orc per rest (takeTopAux per bag 0 items)
    | .error _ => addTopTracks orc per rest bag

/-- `u.split(":")[-1]` (spotify_client.py:255). -/
def trackId (u : String) : String := (u.splitOn (":")).getLastD u

/-- `_audio_feature_filter(sp, uris, params)` (spotify_client.py:232-314),
fetching metadata and features through the oracle; a metadata failure
gives `[]`, a feature failure gives `None`. -/
def audioFeatureFilterO (orc : Oracle) (uris : List String) (fp : FilterParams) : List String :=
  if uris = [] then uris
  else
    let ids := uris.map trackId
    let meta :=
      match orc.tracksMeta ids with
      | .ok ms => ms
      | .error _ => []
    let feats :=
      match orc.audioFeatures ids with
      | .ok fs => some fs
      | .error _ => none
    audioFilterCore uris meta feats fp

/-- The one way `recommend_tracks` can raise: the final
`random.shuffle(filtered)` (spotify_client.py:520) sits outside the
`len(bag) < n` branch that assigns `filtered` (504-517), so Python
raises `UnboundLocalError` whenever that branch is skipped. -/
inductive PyErr where
  | unboundLocalFiltered
deriving DecidableEq

/-- `recommend_tracks(sp, params, n)` (spotify_client.py:319-521). -/
def recommend_tracks (orc : Oracle) (rnd : Rand) (p : RecParams) (n : ℕ) :
    Except PyErr (List String) :=
  let candidates := normalizeGenreList orc.allowedGenres p.rawGenres
  let kwSeeds := keywordsToSeedTracks orc p.keywords 2
  let seeds := buildSeeds orc p.userArtistIds candidates kwSeeds rnd.kwCoin
  let limit := min 50 (max 10 n)
  let kwargs : RecRequest :=
    { limit := limit, market := some ("US"),
      targetEnergy := some (jitterAt (mid p.energyRange) (mkRat 12 100) rnd.uE),
      targetValence := some (jitterAt (mid p.valenceRange) (mkRat 12 100) rnd.uV),
      targetDanceability := some (jitterAt (mid p.danceabilityRange) (mkRat 12 100) rnd.uD),
      targetAcousticness := some (jitterAt (mid p.acousticnessRange) (mkRat 12 100) rnd.uA),
      targetTempo := some (sentTempo p.tempoBpm rnd.tempoJit),
      seedArtists := seeds.artists, seedGenres := seeds.genres, seedTracks := seeds.tracks }
  let slim : RecRequest :=
    { limit := limit, market := some ("US"),
      targetEnergy := none, targetValence := none, targetDanceability := none,
      targetAcousticness := none, targetTempo := none,
      seedArtists := seeds.artists, seedGenres := seeds.genres, seedTracks := [] }
  let genresOnly : RecRequest :=
    { limit := limit, market := some ("US"),
      targetEnergy := none, targetValence := none, targetDanceability := none,
      targetAcousticness := none, targetTempo := none,
      seedArtists := [], seedGenres := seeds.genresAll, seedTracks := [] }
  let bag0 := recsChain (orc.recommendations kwargs) (orc.recommendations slim)
    (orc.recommendations genresOnly) (!seeds.genresAll.isEmpty)
  let bag1 :=
    if p.userArtistIds = [] then bag0
    else
      let targetTotal := max 8 (min (n * 3 / 5) 28)
      let perArtist := max 2 (targetTotal / max 1 p.userArtistIds.length)
      addTopTracks orc perArtist (p.userArtistIds.take 5) bag0
  if bag1.length < n then
    let queryBits :=
      if p.keywords ≠ [] then p.keywords
      else if candidates ≠ [] then candidates
      else ["best", "mix"]
    let q := String.intercalate (" ") (queryBits.take 3)
    let bag2 :=
      match orc.searchTracks q with
      | .ok items => mergeUris bag1 items
      | .error _ => bag1
    let fp := filterParamsOf p
    let filtered0 := audioFeatureFilterO orc bag2 fp
    let filtered1 :=
      if filtered0.length < n * 3 / 5 then audioFeatureFilterO orc bag2 (relaxParams fp)
      else filtered0
    let filtered2 :=
      if filtered1.length < n * 2 / 5 then bag2.filter (fun u => !looksLikeSfxStr u)
      else filtered1
    .ok ((rnd.shuffle filtered2).take n)
  else
    .error PyErr.unboundLocalFiltered

/-! ### Genre hero resolver (`get_genre_hero`, spotify_client.py:610-644) -/

/-- Artist object fields `get_genre_hero` reads; `images` holds the
image URLs in order. -/
structure ArtistObj where
  id : String
  name : String
  images : List String
  url : String
deriving DecidableEq

/-- The cached hero payload (spotify_client.py:623-628). -/
structure HeroData where
  id : String
  name : String
  image : Option String
  url : String
deriving DecidableEq

/-- `_CANON` (spotify_client.py:557-573). -/
def canonTable : List (String × String) :=
  [("pop", "06HL4z0CvFAxyc27GXpf02"),
   ("hip-hop", "3TVXtAsR1Inumwj472S9r4"),
   ("r-n-b", "1Xyo4u8uXC1ZmMpatF05PJ"),
   ("edm", "7CajNmpbOovFoOoasH2HaY"),
   ("house", "1Cs0zKBU1kc0i8ypK3B9h8a"),
   ("dance-pop", "66CXWjxzNUsdJxJ2JdwvnR"),
   ("reggaeton", "1vyhD5VmyZ7KMfW5gqLgo5"),
   ("dancehall", "2wY79sveU1sp5g7SokKOiI"),
   ("ambient", "2BTZIqw0ntH9MvilQ3ewNY"),
   ("electronic", "4tZwfgrHOc3mvqYlEYSvVi"),
   ("indie-pop", "3e7awlrlDSwF3iM0WBjGMp"),
   ("alt-rock", "5BvJzeQpmsdsFp4HGUYUEx"),
   ("soul", "3fMbdgg4jU18AjLCKBhRSm"),
   ("funk", "7M1FPw29m5FbicYzS2xdpi"),
   ("trap", "1URnnhqYAYcrqrcwql10ft")]

/-- The external lookups `get_genre_hero` performs: `_safe_artist`
(spotify_client.py:579-583, `None` on failure) and
`_search_artist_by_genre` (585-607, search then recommendation
fallback, `None` when neither exposes an artist with an image). -/
structure HeroOracle where
  safeArtist : String → Option ArtistObj
  searchHero : String → Option ArtistObj

/-- `_first_image_url` (spotify_client.py:575-577). -/
def firstImageUrl (a : ArtistObj) : Option String := a.images.head?

/-- The hero payload built from an artist object
(spotify_client.py:623-628 and 635-640). -/
def heroData (a : ArtistObj) : HeroData := ⟨a.id, a.name, firstImageUrl a, a.url⟩

/-- `get_genre_hero(sp, genre)` (spotify_client.py:612-644) with the
process-wide `_GENRE_HERO_CACHE` passed and returned explicitly as an
association list. -/
def getGenreHero (orc : HeroOracle) (cache : List (String × HeroData)) (genre : String) :
    Option HeroData × List (String × HeroData) :=
  let g := lowerStr (stripStr genre)
  if g = "" then (none, cache)
  else
    match List.lookup g cache with
    | some d => (some d, cache)
    | none =>
      let canonHit :=
        match List.lookup g canonTable with
        | some aid => orc.safeArtist aid
        | none => none
      match canonHit with
      | some a => (some (heroData a), (g, heroData a) :: cache)
      | none =>
        match orc.searchHero g with
        | some a => (some (heroData a), (g, heroData a) :: cache)
        | none => (none, cache)

/-! ### Concrete fixtures used by the closed evaluation theorems -/

/-- An oracle on which every external call raises. -/
def orcFail : Oracle :=
  { allowedGenres := [],
    recommendations := fun _ => .error (),
    searchTrackIds := fun _ => .error (),
    searchTracks := fun _ => .error (),
    artistGenres := fun _ => .error (),
    artistTopTracks := fun _ => .error (),
    tracksMeta := fun _ => .error (),
    audioFeatures := fun _ => .error () }

/-- An oracle whose recommendation call returns exactly one track. -/
def orcOne : Oracle :=
  { orcFail with recommendations := fun _ => .ok [some ("spotify:track:aa")] }

/-- Fixed random draws (identity shuffle). -/
def rnd0 : Rand :=
  { uE := 0, uV := 0, uD := 0, uA := 0, tempoJit := 0, kwCoin := 0, shuffle := id }

/-- A plain parameter set: no artists, no genres, no keywords. -/
def p0 : RecParams :=
  { userArtistIds := [], rawGenres := [],
    energyRange := (mkRat 1 2, mkRat 1 2), valenceRange := (mkRat 1 2, mkRat 1 2),
    danceabilityRange := (mkRat 1 2, mkRat 1 2), acousticnessRange := (mkRat 1 2, mkRat 1 2),
    tempoBpm := none, keywords := [], instrumentalOk := false, vocalsRequired := none }

/-- A candidate whose features trip none of the non-tempo heuristics:
speechiness 0.1, instrumentalness 0.1, energy 0.5, duration 200 s. -/
def benignAF (tp : ℚ) : AF :=
  ⟨some (mkRat 1 10), some (mkRat 1 10), some (mkRat 1 2), some tp, some 200000⟩

/-! ## Theorems -/

/-- The dedup-merge loop preserves the no-duplicates invariant. -/
theorem mergeUris_nodup : ∀ (items : List (Option String)) (bag : List String),
    bag.Nodup → (mergeUris bag items).Nodup := by
  intro items
  induction items with
  | nil => intro bag h; exact h
  | cons i is ih =>
    intro bag h
    cases i with
    | none => exact ih bag h
    | some u =>
      by_cases hc : u ≠ "" ∧ u ∉ bag
      · rw [mergeUris, if_pos hc]
        refine ih _ (List.Nodup.append h (List.nodup_singleton u) ?_)
        intro x hx hxu
        rcases List.mem_singleton.mp hxu with rfl
        exact hc.2 hx
      · rw [mergeUris, if_neg hc]
        exact ih bag h

/-- C2 (corrected): the fallback chain as the code executes it, through
the second (shadowing) `_add_from_recs`: (1) full request, then
(2) seeds only, then (3) genre seeds only (attempted only when any genre
seeds exist); the chain stops at the first call that does not raise,
even when it returns zero tracks, so exactly one stage ever contributes;
the contributed identifiers are deduplicated. -/
theorem c2_chain :
    (∀ (l : List (Option String)) (r2 r3 : Except Unit (List (Option String))) (u : Bool),
        recsChain (Except.ok l) r2 r3 u = mergeUris [] l) ∧
    (∀ (l : List (Option String)) (r3 : Except Unit (List (Option String))) (u : Bool),
        recsChain (Except.error ()) (Except.ok l) r3 u = mergeUris [] l) ∧
    (∀ (l : List (Option String)),
        recsChain (Except.error ()) (Except.error ()) (Except.ok l) true = mergeUris [] l) ∧
    (∀ (r3 : Except Unit (List (Option String))),
        recsChain (Except.error ()) (Except.error ()) r3 false = []) ∧
    (∀ (r1 r2 r3 : Except Unit (List (Option String))) (u : Bool),
        (recsChain r1 r2 r3 u).Nodup) := by
  refine ⟨fun _ _ _ _ => rfl, fun _ _ _ => rfl, fun _ => rfl, fun _ => rfl, ?_⟩
  intro r1 r2 r3 u
  unfold recsChain
  cases r1 with
  | ok l => exact mergeUris_nodup l [] List.nodup_nil
  | error e =>
    cases r2 with
    | ok l => exact mergeUris_nodup l [] List.nodup_nil
    | error e2 =>
      cases u with
      | true =>
        cases r3 with
        | ok l => exact mergeUris_nodup l [] List.nodup_nil
        | error e3 => exact List.nodup_nil
      | false => exact List.nodup_nil

/-- C2 witness: the amended chain contract at a concrete input. -/
theorem c2_chain_witness :
    recsChain (Except.ok [some ("spotify:track:bb")]) (Except.error ()) (Except.error ()) false =
      mergeUris [] [some ("spotify:track:bb")] :=
  c2_chain.1 [some ("spotify:track:bb")] (Except.error ()) (Except.error ()) false

/-- C2 counterexample: the first call returns zero tracks without
raising; the code treats it as success and stops, returning the empty
bag — although the seeds-only shape (second response) would have
returned a track, which the second equation shows the chain delivers
when the first call raises instead. So "stop at the first stage that
yields at least one item" is false for the code. -/
theorem c2_cex :
    recsChain (Except.ok []) (Except.ok [some ("spotify:track:aa")]) (Except.error ()) true
      = [] ∧
    recsChain (Except.error ()) (Except.ok [some ("spotify:track:aa")]) (Except.error ()) true
      = ["spotify:track:aa"] := by
  exact ⟨rfl, by decide⟩

/-- C4 counterexample: normalizing `["lo-fi", "Hip Hop!!"]` against the
vocabulary `{"chillhop", "hip-hop", "pop"}` does not return
`["chillhop", "hip-hop"]`: the tokenizer splits "Hip Hop!!" into "hip"
and "hop", neither of which is a synonym-table key or a vocabulary
member (only the single token "hiphop" folds to "hip-hop"). -/
theorem c4_cex :
    normalizeGenreList ["chillhop", "hip-hop", "pop"] ["lo-fi", "Hip Hop!!"] ≠
      ["chillhop", "hip-hop"] := by
  decide

/-- C4 (corrected): the normalization of `["lo-fi", "Hip Hop!!"]` against
the vocabulary `{"chillhop", "hip-hop", "pop"}` is exactly
`["chillhop"]` — "lo-fi" folds to "chillhop"; "Hip Hop!!" contributes
nothing. -/
theorem c4_norm :
    normalizeGenreList ["chillhop", "hip-hop", "pop"] ["lo-fi", "Hip Hop!!"] = ["chillhop"] := by
  decide

/-- C6 counterexample: the vocabulary `{"soul"}` is non-empty, yet
normalizing an input with no usable token returns the empty list,
because the fixed upbeat-biased default list intersects the vocabulary
emptily. -/
theorem c6_cex :
    (["soul"] : List String) ≠ [] ∧ normalizeGenreList ["soul"] [] = [] := by
  decide

/-- C6 (corrected): the default-backfill guarantee holds exactly when the
vocabulary in effect contains at least one entry of the fixed
upbeat-biased default list: then normalization never returns empty. -/
theorem take5_ne_nil {l : List String} (h : l ≠ []) : l.take 5 ≠ [] := by
  intro hc
  rcases List.take_eq_nil_iff.mp hc with h5 | h0
  · exact absurd h5 (by decide)
  · exact h h0

theorem c6_defaults (allowed genres : List String)
    (h : ∃ g ∈ normalizeDefaults, g ∈ allowed) :
    normalizeGenreList allowed genres ≠ [] := by
  rcases h with ⟨g, hg1, hg2⟩
  have hne : allowed ≠ [] := List.ne_nil_of_mem hg2
  have hf : normalizeDefaults.filter (fun x => x ∈ allowed) ≠ [] := by
    refine List.ne_nil_of_mem (a := g) ?_
    rw [List.mem_filter]
    exact ⟨hg1, by simpa using hg2⟩
  unfold normalizeGenreList
  dsimp only
  simp only [if_neg hne]
  by_cases hv : (dedupAux []
      (((genres.map splitTokens).flatten).map synonymFold)).filter (fun x => x ∈ allowed) = []
  · rw [if_pos hv]
    exact take5_ne_nil (take5_ne_nil hf)
  · rw [if_neg hv]
    exact take5_ne_nil hv

/-- C6 witness: against the built-in default vocabulary, an unusable
input still normalizes to a non-empty list. -/
theorem c6_defaults_witness : normalizeGenreList defaultSeedGenres ["qqq"] ≠ [] :=
  c6_defaults defaultSeedGenres ["qqq"] ⟨"pop", by decide, by decide⟩

/-- C10 (confirmed): the tempo target placed into the request equals the
input tempo clamped to [40, 220] plus the random draw in [-8, 8]; its
range is [32, 228], and both 32 and 228 are attained — values outside
the documented 40–220 range. -/
theorem c10_sent_tempo :
    (∀ (tb : Option ℤ) (r : ℤ), -8 ≤ r → r ≤ 8 →
        sentTempo tb r = max 40 (min 220 (tb.getD 100)) + r ∧
        32 ≤ sentTempo tb r ∧ sentTempo tb r ≤ 228) ∧
    sentTempo (some 30) (-8) = 32 ∧ sentTempo (some 230) 8 = 228 := by
  refine ⟨?_, by decide, by decide⟩
  intro tb r h1 h2
  refine ⟨rfl, ?_, ?_⟩ <;> simp only [sentTempo, clampTempo] <;> omega

/-- C10 witness: the bounds at a concrete draw. -/
theorem c10_sent_tempo_witness : 32 ≤ sentTempo (some 100) 8 ∧ sentTempo (some 100) 8 ≤ 228 :=
  ⟨(c10_sent_tempo.1 (some 100) 8 (by decide) (by decide)).2.1,
   (c10_sent_tempo.1 (some 100) 8 (by decide) (by decide)).2.2⟩

/-- Budget arithmetic of the seed dict, for arbitrary artist list `A`
(with `A.length ≤ 3`), genre list `G` and keyword-seed list `T`. -/
theorem seedBudgetCore (A G T : List String) (coin : ℚ) (hA : A.length ≤ 3) :
    (if A ≠ [] then A.take 5 else []).length ≤ 3 ∧
    (if A ≠ [] then A.take 5 else []).length +
      (if G ≠ [] ∧ A.length < 5 then G.take (5 - A.length) else []).length ≤ 5 ∧
    (if T ≠ [] ∧ coin < mkRat 6 10 ∧
        max 0 (5 - ((if A ≠ [] then A.take 5 else []).length +
          (if G ≠ [] ∧ A.length < 5 then G.take (5 - A.length) else []).length)) > 0 then
      T.take 1 else []).length ≤ 1 ∧
    ((if T ≠ [] ∧ coin < mkRat 6 10 ∧
        max 0 (5 - ((if A ≠ [] then A.take 5 else []).length +
          (if G ≠ [] ∧ A.length < 5 then G.take (5 - A.length) else []).length)) > 0 then
      T.take 1 else []) ≠ [] →
      (if A ≠ [] then A.take 5 else []).length +
        (if G ≠ [] ∧ A.length < 5 then G.take (5 - A.length) else []).length ≤ 4) ∧
    (if A ≠ [] then A.take 5 else []).length +
      (if G ≠ [] ∧ A.length < 5 then G.take (5 - A.length) else []).length +
      (if T ≠ [] ∧ coin < mkRat 6 10 ∧
          max 0 (5 - ((if A ≠ [] then A.take 5 else []).length +
            (if G ≠ [] ∧ A.length < 5 then G.take (5 - A.length) else []).length)) > 0 then
        T.take 1 else []).length ≤ 5 := by
  by_cases h1 : A ≠ [] <;> by_cases h2 : G ≠ [] ∧ A.length < 5 <;>
    simp only [if_pos, if_neg, h1, h2, ite_true, ite_false, not_true, not_false_iff] <;>
    split_ifs <;>
    simp_all [List.length_take] <;>
    omega

/-- C8 (confirmed): every assembled seed set obeys the budget — at most
3 artist seeds, genre seeds only in the remaining `5 - artists` slots,
at most one keyword seed track and only when room remains, and
`artists + genres + tracks ≤ 5` overall. -/
theorem c8_seed_budget (orc : Oracle) (userArtistIds candidates kwSeeds : List String)
    (coin : ℚ) :
    (buildSeeds orc userArtistIds candidates kwSeeds coin).artists.length ≤ 3 ∧
    (buildSeeds orc userArtistIds candidates kwSeeds coin).artists.length +
      (buildSeeds orc userArtistIds candidates kwSeeds coin).genres.length ≤ 5 ∧
    (buildSeeds orc userArtistIds candidates kwSeeds coin).tracks.length ≤ 1 ∧
    ((buildSeeds orc userArtistIds candidates kwSeeds coin).tracks ≠ [] →
      (buildSeeds orc userArtistIds candidates kwSeeds coin).artists.length +
        (buildSeeds orc userArtistIds candidates kwSeeds coin).genres.length ≤ 4) ∧
    (buildSeeds orc userArtistIds candidates kwSeeds coin).artists.length +
      (buildSeeds orc userArtistIds candidates kwSeeds coin).genres.length +
      (buildSeeds orc userArtistIds candidates kwSeeds coin).tracks.length ≤ 5 := by
  unfold buildSeeds
  dsimp only
  exact seedBudgetCore _ _ _ _ (List.length_take_le _ _)

/-- Relaxing the filter parameters can only keep more: the relaxation
forces `vocals_required = False`, dropping the instrumentalness
exclusion, and changes nothing else. -/
theorem featKeep_mono (fp : FilterParams) (f : AF) (h : featKeep fp f = true) :
    featKeep (relaxParams fp) f = true := by
  simp only [featKeep, relaxParams] at h ⊢
  split_ifs at h ⊢ <;> simp_all

/-- Pointwise monotonicity of one feature-loop step. -/
theorem featStep_mono (fp : FilterParams) (m : Bool) (f : Option AF)
    (h : featStep fp m f = true) : featStep (relaxParams fp) m f = true := by
  cases f with
  | none => exact h
  | some fv =>
    cases m with
    | false => simp [featStep] at h
    | true =>
      simp only [featStep, if_pos] at h ⊢
      exact featKeep_mono fp fv h

/-- The feature pass is pointwise monotone under relaxation. -/
theorem applyFeats_mono (fp : FilterParams) :
    ∀ (ms : List Bool) (fs : List (Option AF)),
    List.Forall₂ (fun a b => a = true → b = true) (applyFeats fp ms fs)
      (applyFeats (relaxParams fp) ms fs) := by
  intro ms fs
  induction fs generalizing ms with
  | nil =>
    cases ms <;> exact List.forall₂_same.mpr (fun a _ => id)
  | cons f fs ih =>
    cases ms with
    | nil => exact List.Forall₂.nil
    | cons m ms' =>
      exact List.Forall₂.cons (featStep_mono fp m f) (ih ms')

theorem maskKeep_nil_right (us : List String) : maskKeep us [] = [] := by
  simp [maskKeep]

theorem maskKeep_cons (u : String) (us : List String) (b : Bool) (bs : List Bool) :
    maskKeep (u :: us) (b :: bs) =
      if b then u :: maskKeep us bs else maskKeep us bs := by
  simp only [maskKeep, List.zip_cons_cons, List.filter_cons]
  cases b <;> simp

/-- A pointwise-weaker mask keeps a superset. -/
theorem maskKeep_mono {m1 m2 : List Bool}
    (h : List.Forall₂ (fun a b => a = true → b = true) m1 m2) :
    ∀ us : List String, maskKeep us m1 ⊆ maskKeep us m2 := by
  induction h with
  | nil => intro us; exact List.Subset.refl _
  | @cons a b l1 l2 hab htail ih =>
    intro us
    cases us with
    | nil => simp [maskKeep]
    | cons u us' =>
      rw [maskKeep_cons, maskKeep_cons]
      cases ha : a with
      | true =>
        rw [hab ha]
        simp only [if_pos]
        exact List.cons_subset_cons u (ih us')
      | false =>
        simp only [if_neg Bool.false_ne_true]
        cases b with
        | true =>
          simp only [if_pos]
          exact (ih us').trans (List.subset_cons_self u _)
        | false =>
          simp only [if_neg Bool.false_ne_true]
          exact ih us'

/-- Survivors of the strict audio-feature filter survive the relaxed one:
the title pass is unchanged and the feature pass is pointwise monotone. -/
theorem audioFilterCore_mono (uris : List String) (meta : List (Option TrackMeta))
    (feats : Option (List (Option AF))) (fp : FilterParams) :
    audioFilterCore uris meta feats fp ⊆ audioFilterCore uris meta feats (relaxParams fp) := by
  unfold audioFilterCore
  split_ifs
  · exact List.Subset.refl _
  · dsimp only
    cases feats with
    | none => exact List.Subset.refl _
    | some fs =>
      dsimp only
      by_cases hfs : fs = []
      · rw [if_pos hfs, if_pos hfs]
        exact List.Subset.refl _
      · rw [if_neg hfs, if_neg hfs]
        exact maskKeep_mono (applyFeats_mono fp _ fs) uris

/-- C3 (code bug): stage-1 relaxation (dropping the instrumentalness
exclusion) always keeps a superset of stage-0 survivors — but stage 2,
which per spec and the code's own comment should apply only the
title/album heuristic, actually applies the textual heuristic to the
URI string (`_looks_like_sfx(u)` for URI `u`, spotify_client.py:517).
A track whose URI text contains a block term ("rain" in
"spotify:track:rain1") but whose title and album are clean survives
stage 1 and is dropped by stage 2, so stage 2 is not a superset of
stage 1. -/
theorem c3_filter_stages :
    (∀ (uris : List String) (meta : List (Option TrackMeta))
        (feats : Option (List (Option AF))) (fp : FilterParams),
        audioFilterCore uris meta feats fp ⊆
          audioFilterCore uris meta feats (relaxParams fp)) ∧
    audioFilterCore ["spotify:track:rain1"] [some ⟨"hello", "there"⟩]
      (some [some (benignAF 120)]) ⟨false, none, some 120⟩ = ["spotify:track:rain1"] ∧
    audioFilterCore ["spotify:track:rain1"] [some ⟨"hello", "there"⟩]
      (some [some (benignAF 120)]) (relaxParams ⟨false, none, some 120⟩) =
        ["spotify:track:rain1"] ∧
    ["spotify:track:rain1"].filter (fun u => !looksLikeSfxStr u) = [] :=
  ⟨audioFilterCore_mono, by decide, by decide, by decide⟩

/-- C7 counterexample: tempo target 50, candidate tempo 25. The candidate
is inside target ± 28 BPM (22 ≤ 25 ≤ 78), yet the filter excludes it:
the code's window is `[max(40, t-20) - 8, min(220, t+20) + 8]` =
[32, 78] at target 50, because the structural bounds are clamped to
[40, 220] before the ±8 slack is added. So "excluded iff outside
target ± 28" is false. -/
theorem c7_cex :
    audioFilterCore ["spotify:track:aa"] [some ⟨"hello", "there"⟩]
      (some [some (benignAF 25)]) ⟨false, none, some 50⟩ = [] ∧
    (50 : ℚ) - 28 ≤ 25 ∧ (25 : ℚ) ≤ 50 + 28 := by
  refine ⟨by decide, by norm_num, by norm_num⟩

/-- C7 (corrected): for a candidate with known tempo and otherwise benign
features, the filter excludes it iff its tempo lies outside
`[max(40, t-20) - 8, min(220, t+20) + 8]`; for targets in [60, 200]
this window equals target ± 28, and the claim's scenario holds: at
target 140, tempo 175 is excluded (175 > 168) and tempo 165 is
retained. -/
theorem c7_tempo :
    (∀ (t : ℤ) (tp : ℚ),
        featKeep ⟨false, none, some t⟩ (benignAF tp) = false ↔
          (tp < ((max 40 (t - 20) - 8 : ℤ) : ℚ) ∨ tp > ((min 220 (t + 20) + 8 : ℤ) : ℚ))) ∧
    (∀ (t : ℤ) (tp : ℚ), 60 ≤ t → t ≤ 200 →
        (featKeep ⟨false, none, some t⟩ (benignAF tp) = false ↔
          (tp < (t : ℚ) - 28 ∨ tp > (t : ℚ) + 28))) ∧
    audioFilterCore ["spotify:track:aa"] [some ⟨"hello", "there"⟩]
      (some [some (benignAF 175)]) ⟨false, none, some 140⟩ = [] ∧
    audioFilterCore ["spotify:track:aa"] [some ⟨"hello", "there"⟩]
      (some [some (benignAF 165)]) ⟨false, none, some 140⟩ = ["spotify:track:aa"] := by
  have hbase : ∀ (t : ℤ) (tp : ℚ),
      featKeep ⟨false, none, some t⟩ (benignAF tp) = false ↔
        (tp < ((max 40 (t - 20) - 8 : ℤ) : ℚ) ∨ tp > ((min 220 (t + 20) + 8 : ℤ) : ℚ)) := by
    intro t tp
    unfold featKeep benignAF
    dsimp only
    rw [if_neg (by decide), if_neg (by decide), if_neg (by decide), if_neg (by decide)]
    rw [Bool.not_eq_false']
    unfold tempoBad
    dsimp only
    simp only [decide_eq_true_eq]
  refine ⟨hbase, ?_, by decide, by decide⟩
  intro t tp h60 h200
  rw [hbase t tp]
  rw [max_eq_right (by omega : (40 : ℤ) ≤ t - 20), min_eq_right (by omega : t + 20 ≤ 220)]
  constructor
  · rintro (h | h)
    · left; push_cast at h; linarith
    · right; push_cast at h; linarith
  · rintro (h | h)
    · left; push_cast; linarith
    · right; push_cast; linarith

/-- C7 witness: the corrected window contract applied at target 140 and
tempo 175 — excluded because 175 > 168 = 140 + 28. -/
theorem c7_tempo_witness :
    featKeep ⟨false, none, some 140⟩ (benignAF 175) = false :=
  (c7_tempo.2.1 140 175 (by decide) (by decide)).mpr (by norm_num)

/-- Half-even rounding never moves below an integer lower bound. -/
theorem le_pyRoundInt (x : ℚ) (a : ℤ) (ha : (a : ℚ) ≤ x) : a ≤ pyRoundInt x := by
  have hf : a ≤ Int.floor x := Int.le_floor.mpr ha
  unfold pyRoundInt
  dsimp only
  split_ifs <;> omega

/-- Half-even rounding never moves above an integer upper bound. -/
theorem pyRoundInt_le (x : ℚ) (b : ℤ) (hb : x ≤ (b : ℚ)) : pyRoundInt x ≤ b := by
  have hfb : Int.floor x ≤ b := by
    have := Int.floor_le_floor hb
    simpa using this
  have hfx : (Int.floor x : ℚ) ≤ x := Int.floor_le x
  unfold pyRoundInt
  dsimp only
  split_ifs with h1 h2
  · exact hfb
  · -- x - ⌊x⌋ > 1/2, so x > ⌊x⌋ and b > ⌊x⌋
    have hlt : (Int.floor x : ℚ) < x := by linarith
    have : Int.floor x < b := by
      by_contra hc
      push_neg at hc
      have hbe : b = Int.floor x := le_antisymm hc hfb
      subst hbe
      linarith
    omega
  · exact hfb
  · -- the half-to-even +1 case: x - ⌊x⌋ = 1/2 exactly
    have hhalf : x - (Int.floor x : ℚ) = 1 / 2 := le_antisymm (not_lt.mp ?hgt) (not_lt.mp h1)
    case hgt => exact ‹¬x - (Int.floor x : ℚ) > 1 / 2›
    have hlt : (Int.floor x : ℚ) < x := by linarith
    have : Int.floor x < b := by
      by_contra hc
      push_neg at hc
      have hbe : b = Int.floor x := le_antisymm hc hfb
      subst hbe
      linarith
    omega

/-- Python `round(x, 2)` keeps values of `[0, 1]` inside `[0, 1]`. -/
theorem round2_bounds (x : ℚ) (h0 : 0 ≤ x) (h1 : x ≤ 1) :
    0 ≤ round2 x ∧ round2 x ≤ 1 := by
  have hl : (0 : ℤ) ≤ pyRoundInt (x * 100) := by
    refine le_pyRoundInt _ 0 ?_
    push_cast
    linarith
  have hu : pyRoundInt (x * 100) ≤ 100 := by
    refine pyRoundInt_le _ 100 ?_
    push_cast
    linarith
  unfold round2
  constructor
  · apply div_nonneg _ (by norm_num)
    exact_mod_cast hl
  · rw [div_le_one (by norm_num)]
    exact_mod_cast hu

/-- C5 counterexample: center 0.7 ∈ [0, 1], spread 0.15, unit sample 1
(a legitimate draw): the jitter output is 0.85, which exceeds
`min(1, center - spread) = 0.55` — the claimed sampling interval
`[max(0, c-s), min(1, c-s)]` is wrong (its upper end subtracts the
spread). -/
theorem c5_cex :
    jitter (some (7 / 10)) (15 / 100) 1 = some (17 / 20) ∧
    ¬ ((17 / 20 : ℚ) ≤ min 1 ((7 / 10 : ℚ) - 15 / 100)) ∧
    (0 : ℚ) ≤ 7 / 10 ∧ (7 / 10 : ℚ) ≤ 1 ∧ (0 : ℚ) ≤ 1 ∧ (1 : ℚ) ≤ 1 := by
  have h1 : max (0 : ℚ) (7 / 10 - 15 / 100) = 11 / 20 := by
    rw [max_eq_right] <;> norm_num
  have h2 : min (1 : ℚ) (7 / 10 + 15 / 100) = 17 / 20 := by
    rw [min_eq_right] <;> norm_num
  refine ⟨?_, by rw [min_eq_right (by norm_num)]; norm_num, by norm_num, by norm_num,
    by norm_num, le_refl 1⟩
  show some (jitterAt (7 / 10) (15 / 100) 1) = some (17 / 20)
  unfold jitterAt
  rw [h1, h2]
  dsimp only
  have h3 : (11 / 20 : ℚ) + 1 * (17 / 20 - 11 / 20) = 17 / 20 := by norm_num
  rw [h3]
  unfold round2 pyRoundInt
  have h4 : (17 / 20 : ℚ) * 100 = ((85 : ℤ) : ℚ) := by norm_num
  rw [h4]
  rw [Int.floor_intCast]
  norm_num

/-- C5 (corrected): an absent center maps to an absent output, and for
center ∈ [0, 1], spread ≥ 0 and any unit sample u ∈ [0, 1] the output
is the 2-decimal rounding of the uniform sample
`lo + u * (hi - lo)` with `lo = max(0, c - spread)`,
`hi = min(1, c + spread)` — the upper end *adds* the spread — and the
result lies in [0, 1]. -/
theorem c5_jitter (v spread u : ℚ) (hv0 : 0 ≤ v) (hv1 : v ≤ 1) (hs : 0 ≤ spread)
    (hu0 : 0 ≤ u) (hu1 : u ≤ 1) :
    jitter none spread u = none ∧
    jitter (some v) spread u =
      some (round2 (max 0 (v - spread) + u * (min 1 (v + spread) - max 0 (v - spread)))) ∧
    ∀ q, jitter (some v) spread u = some q → 0 ≤ q ∧ q ≤ 1 := by
  refine ⟨rfl, rfl, ?_⟩
  intro q hq
  have hq2 : q = jitterAt v spread u := by
    have := Option.some.inj hq
    exact this.symm
  subst hq2
  unfold jitterAt
  have hlo0 : (0 : ℚ) ≤ max 0 (v - spread) := le_max_left 0 _
  have hlov : max 0 (v - spread) ≤ v := max_le hv0 (by linarith)
  have hvhi : v ≤ min 1 (v + spread) := le_min hv1 (by linarith)
  have hhi1 : min 1 (v + spread) ≤ 1 := min_le_left 1 _
  have hlh : max 0 (v - spread) ≤ min 1 (v + spread) := le_trans hlov hvhi
  have hs0 : 0 ≤ max 0 (v - spread) + u * (min 1 (v + spread) - max 0 (v - spread)) := by
    have := mul_nonneg hu0 (sub_nonneg.mpr hlh)
    linarith
  have hs1 : max 0 (v - spread) + u * (min 1 (v + spread) - max 0 (v - spread)) ≤ 1 := by
    have hle : u * (min 1 (v + spread) - max 0 (v - spread)) ≤
        min 1 (v + spread) - max 0 (v - spread) :=
      mul_le_of_le_one_left (sub_nonneg.mpr hlh) hu1
    linarith
  exact round2_bounds _ hs0 hs1

/-- C5 witness: the corrected jitter contract at center 1/2, spread 0.15,
unit sample 0. -/
theorem c5_jitter_witness :
    jitter none (15 / 100) 0 = none ∧
    (∀ q, jitter (some (1 / 2)) (15 / 100) 0 = some q → 0 ≤ q ∧ q ≤ 1) :=
  ⟨(c5_jitter (1 / 2) (15 / 100) 0 (by norm_num) (by norm_num) (by norm_num) (by norm_num)
      (by norm_num)).1,
   (c5_jitter (1 / 2) (15 / 100) 0 (by norm_num) (by norm_num) (by norm_num) (by norm_num)
      (by norm_num)).2.2⟩

/-- C9 (confirmed): the genre-hero cache stores only successful
resolutions — an absent result leaves the cache unchanged; a cache hit
on the trimmed lower-cased genre returns the cached value unchanged;
and any cache growth is exactly one entry keyed by the trimmed
lower-cased genre, holding the returned value. -/
theorem c9_hero_cache (orc : HeroOracle) (cache : List (String × HeroData)) (genre : String) :
    ((getGenreHero orc cache genre).1 = none → (getGenreHero orc cache genre).2 = cache) ∧
    (∀ d, lowerStr (stripStr genre) ≠ "" →
        List.lookup (lowerStr (stripStr genre)) cache = some d →
        (getGenreHero orc cache genre).1 = some d ∧
        (getGenreHero orc cache genre).2 = cache) ∧
    ((getGenreHero orc cache genre).2 = cache ∨
      ∃ d, (getGenreHero orc cache genre).1 = some d ∧
        (getGenreHero orc cache genre).2 = (lowerStr (stripStr genre), d) :: cache) := by
  unfold getGenreHero
  dsimp only
  split_ifs with hg
  · exact ⟨fun _ => rfl, fun d hne _ => absurd hg hne, Or.inl rfl⟩
  · cases hl : List.lookup (lowerStr (stripStr genre)) cache with
    | some d =>
      exact ⟨fun _ => rfl, fun d2 _ hl2 => ⟨hl2, rfl⟩, Or.inl rfl⟩
    | none =>
      cases hc : (match List.lookup (lowerStr (stripStr genre)) canonTable with
        | some aid => orc.safeArtist aid
        | none => none) with
      | some a =>
        exact ⟨fun h => absurd h (by simp), fun d2 _ hl2 => absurd hl2 (by simp),
          Or.inr ⟨heroData a, rfl, rfl⟩⟩
      | none =>
        cases hs : orc.searchHero (lowerStr (stripStr genre)) with
        | some a =>
          exact ⟨fun h => absurd h (by simp), fun d2 _ hl2 => absurd hl2 (by simp),
            Or.inr ⟨heroData a, rfl, rfl⟩⟩
        | none =>
          exact ⟨fun _ => rfl, fun d2 _ hl2 => absurd hl2 (by simp), Or.inl rfl⟩

/-- C9 witness: a miss on every lookup leaves the cache unchanged. -/
theorem c9_hero_cache_witness :
    (getGenreHero ⟨fun _ => none, fun _ => none⟩ [] ("zzz")).2 = [] :=
  (c9_hero_cache ⟨fun _ => none, fun _ => none⟩ [] ("zzz")).1 (by decide)

/-- C1 (code bug): `recommend_tracks` raises `UnboundLocalError` on the
very path where the collected pool already reaches the requested count:
the filter/shuffle block that assigns `filtered`
(spotify_client.py:504-517) is nested inside the `len(bag) < n` branch,
while `random.shuffle(filtered)` (line 520) is outside it. With n = 0
(every oracle), or n = 1 against an oracle returning one track, the
branch is skipped and the function raises instead of returning the
collected, deduplicated list. -/
theorem c1_raises :
    recommend_tracks orcFail rnd0 p0 0 = Except.error PyErr.unboundLocalFiltered ∧
    recommend_tracks orcOne rnd0 p0 1 = Except.error PyErr.unboundLocalFiltered :=
  ⟨rfl, rfl⟩

end VibeList
